import Mathlib

/-!
Shallow embedding of the digital-storefront backend.

Source layout:
* `backend/database.py` — document-store client (`create_document`, `get_documents`)
* `backend/schemas.py`  — pydantic models `Product`, `Order`
* `backend/main.py`     — catalog/checkout endpoints
* `main.py`             — subscribe / Razorpay payment endpoints (HMAC verification)

JSON-like values are modelled by `JVal`; a stored document is an association
list with python-dict semantics (first occurrence of a key holds its value,
`setField` updates in place or appends).  Python `float` money fields are
modelled by `Rat`; machine integers do not overflow in any code path here.
-/

/-- JSON-like value as produced by `model_dump` / stored in the document store. -/
inductive JVal where
  | str (s : String)
  | num (q : Rat)
  | bool (b : Bool)
  | null
  | arr (l : List JVal)
  | obj (l : List (String × JVal))

/-- A document: a python dict, keys unique, insertion-ordered. -/
abbrev Doc := List (String × JVal)

/-- Dict read: value of the first occurrence of key `k`. -/
def lookupField : Doc → String → Option JVal
  | [], _ => none
  | (k2, v) :: t, k => if k2 == k then some v else lookupField t k

/-- Dict write `d[k] = v`: update in place, or append when the key is new. -/
def setField : Doc → String → JVal → Doc
  | [], k, v => [(k, v)]
  | (k2, w) :: t, k, v => if k2 == k then (k, v) :: t else (k2, w) :: setField t k v

/-- The document store: collections (`db[collection_name]`) as lists of
documents in insertion order (`insert_one` appends). -/
def Store := String → List Doc

def Store.empty : Store := fun _ => []

/-- `database.create_document(collection_name, data)`:
`payload = {**data, "created_at": now, "updated_at": now}` then `insert_one`
and `payload["_id"] = str(res.inserted_id)`.  `now` is the wall-clock
`datetime.utcnow().isoformat()` string and `newId` is the store-assigned
identifier, both passed explicitly; stringification of the identifier is
folded into the insertion.  Returns the augmented payload and the new store. -/
def create_document (st : Store) (coll : String) (data : Doc) (now newId : String) :
    Doc × Store :=
  let payload := setField (setField data "created_at" (.str now)) "updated_at" (.str now)
  let payload := setField payload "_id" (.str newId)
  (payload, fun c => if c == coll then st c ++ [payload] else st c)

/-- A Mongo filter condition on one top-level field: exact string match
(`{"slug": s}`) or a numeric range (`{"$gte": lo, "$lte": hi}`). -/
inductive QCond where
  | eqs (s : String)
  | range (lo hi : Option Rat)

def matchCond (d : Doc) (k : String) : QCond → Bool
  | .eqs s =>
      match lookupField d k with
      | some (.str s2) => s2 == s
      | _ => false
  | .range lo hi =>
      match lookupField d k with
      | some (.num q) =>
          (lo.all fun a => decide (a ≤ q)) && (hi.all fun b => decide (q ≤ b))
      | _ => false

def matchFilter (f : List (String × QCond)) (d : Doc) : Bool :=
  f.all fun kc => matchCond d kc.1 kc.2

/-- `database.get_documents(collection_name, filter_dict, limit)`:
`find(filter).limit(limit)` in natural (insertion) order, identifiers already
string-form. -/
def get_documents (st : Store) (coll : String) (f : List (String × QCond))
    (limit : Nat) : List Doc :=
  ((st coll).filter (matchFilter f)).take limit

/-! ## Schemas (`backend/schemas.py`) -/

inductive Category where
  | course | prompt | video | template | bundle | other
deriving DecidableEq

def Category.toStr : Category → String
  | .course => "course" | .prompt => "prompt" | .video => "video"
  | .template => "template" | .bundle => "bundle" | .other => "other"

inductive Level where
  | beginner | intermediate | advanced
deriving DecidableEq

def Level.toStr : Level → String
  | .beginner => "beginner" | .intermediate => "intermediate" | .advanced => "advanced"

/-- `Product` after type-level parsing: field types are enforced by the
embedding types, value-level `Field` constraints are checked by
`validProduct`. -/
structure Product where
  title : String
  slug : String
  description : String
  price : Rat
  category : Category
  level : Option Level
  rating : Rat
  rating_count : Int
  cover_url : Option String
  contents : Option (List String)
  benefits : Option (List String)
  tags : Option (List String)

/-- The value-level pydantic `Field` constraints of `Product`:
title 3–120 chars, slug 3–140, description 20–5000, price ≥ 0, rating 0–5. -/
def validProduct (p : Product) : Bool :=
  decide (3 ≤ p.title.length) && decide (p.title.length ≤ 120) &&
  decide (3 ≤ p.slug.length) && decide (p.slug.length ≤ 140) &&
  decide (20 ≤ p.description.length) && decide (p.description.length ≤ 5000) &&
  decide (0 ≤ p.price) &&
  decide (0 ≤ p.rating) && decide (p.rating ≤ 5)

def optStr : Option String → JVal
  | none => .null
  | some s => .str s

def optStrList : Option (List String) → JVal
  | none => .null
  | some l => .arr (l.map .str)

/-- `product.model_dump()`: fields in declaration order. -/
def productToDoc (p : Product) : Doc :=
  [("title", .str p.title), ("slug", .str p.slug),
   ("description", .str p.description), ("price", .num p.price),
   ("category", .str p.category.toStr),
   ("level", match p.level with | none => .null | some l => .str l.toStr),
   ("rating", .num p.rating), ("rating_count", .num (p.rating_count : Rat)),
   ("cover_url", optStr p.cover_url),
   ("contents", optStrList p.contents), ("benefits", optStrList p.benefits),
   ("tags", optStrList p.tags)]

inductive OrderStatus where
  | pending | paid | failed
deriving DecidableEq

def OrderStatus.toStr : OrderStatus → String
  | .pending => "pending" | .paid => "paid" | .failed => "failed"

/-- `Order` after parsing (`email` is a plain `str`, not validated). -/
structure Order where
  product_id : String
  email : String
  amount : Rat
  status : OrderStatus
  download_url : Option String

/-- `order.model_dump()`. -/
def orderToDoc (o : Order) : Doc :=
  [("product_id", .str o.product_id), ("email", .str o.email),
   ("amount", .num o.amount), ("status", .str o.status.toStr),
   ("download_url", optStr o.download_url)]

/-! ## Catalog / checkout endpoints (`backend/main.py`) -/

/-- Outcome of an endpoint returning one document. -/
inductive DocResult where
  | ok (d : Doc)
  | httpError (status : Nat) (detail : String)

/-- `POST /products`: FastAPI/pydantic validation happens before the handler
(422 on failure, nothing inserted); on success the handler inserts the dump
into collection "product" and returns the stored document. -/
def create_product (st : Store) (p : Product) (now newId : String) :
    DocResult × Store :=
  if validProduct p then
    let r := create_document st "product" (productToDoc p) now newId
    (.ok r.1, r.2)
  else
    (.httpError 422 "validation error", st)

/-- `GET /products`: builds `filter_q` from the optional query parameters
(python truthiness: an empty-string `category`/`level` adds no filter; a
price bound participates whenever it `is not None`) and queries with `limit`. -/
def list_products (st : Store) (category : Option String)
    (min_price max_price : Option Rat) (level : Option String) (limit : Nat) :
    List Doc :=
  let fq : List (String × QCond) := []
  let fq := match category with
    | some c => if c == "" then fq else fq ++ [("category", .eqs c)]
    | none => fq
  let fq := match level with
    | some l => if l == "" then fq else fq ++ [("level", .eqs l)]
    | none => fq
  let fq := match min_price, max_price with
    | none, none => fq
    | lo, hi => fq ++ [("price", .range lo hi)]
  get_documents st "product" fq limit

/-- `GET /products/{slug}`: query `{"slug": slug}` with limit 1; 404 when
empty, else the single match. -/
def get_product (st : Store) (slug : String) : DocResult :=
  match get_documents st "product" [("slug", .eqs slug)] 1 with
  | [] => .httpError 404 "Product not found"
  | d :: _ => .ok d

/-- `POST /checkout`: dump the order, force `status = "paid"`, default the
download URL to `"https://example.com/download/" + product_id` when falsy
(python `or`: `None` or empty string), insert into "order". -/
def checkout (st : Store) (o : Order) (now newId : String) : Doc × Store :=
  let paid := orderToDoc o
  let paid := setField paid "status" (.str "paid")
  let dl : JVal := match lookupField paid "download_url" with
    | some (.str u) =>
        if u == "" then .str ("https://example.com/download/" ++ o.product_id)
        else .str u
    | _ => .str ("https://example.com/download/" ++ o.product_id)
  let paid := setField paid "download_url" dl
  create_document st "order" paid now newId

/-! ## SHA-256 and HMAC (python `hashlib` / `hmac` as used in `main.py`)

Bytes are `Nat` values < 256; 32-bit words are `Nat` values reduced mod
`2 ^ 32` wherever addition could overflow. -/

def M32 : Nat := 2 ^ 32

/-- Right-rotation of a 32-bit word. -/
def rotr32 (n x : Nat) : Nat := ((x >>> n) ||| (x <<< (32 - n))) % M32

def not32 (x : Nat) : Nat := 0xFFFFFFFF ^^^ x

/-- `k` bytes, big-endian, of `n`. -/
def toBytesBE (k n : Nat) : List Nat :=
  (List.range k).map fun i => (n >>> (8 * (k - 1 - i))) &&& 0xFF

/-- Big-endian 32-bit word from four bytes. -/
def word32 : List Nat → Nat
  | b0 :: b1 :: b2 :: b3 :: _ => ((b0 <<< 24) + (b1 <<< 16) + (b2 <<< 8) + b3) % M32
  | _ => 0

def chunksAux (n : Nat) : Nat → List Nat → List (List Nat)
  | 0, _ => []
  | _, [] => []
  | fuel + 1, l => l.take n :: chunksAux n fuel (l.drop n)

/-- Split a byte list into chunks of `n` bytes. -/
def chunks (n : Nat) (l : List Nat) : List (List Nat) := chunksAux n l.length l

/-- SHA-256 round constants. -/
def sha256K : Array Nat := #[
  1116352408, 1899447441, 3049323471, 3921009573, 961987163,
  1508970993, 2453635748, 2870763221, 3624381080, 310598401,
  607225278, 1426881987, 1925078388, 2162078206, 2614888103,
  3248222580, 3835390401, 4022224774, 264347078, 604807628,
  770255983, 1249150122, 1555081692, 1996064986, 2554220882,
  2821834349, 2952996808, 3210313671, 3336571891, 3584528711,
  113926993, 338241895, 666307205, 773529912, 1294757372,
  1396182291, 1695183700, 1986661051, 2177026350, 2456956037,
  2730485921, 2820302411, 3259730800, 3345764771, 3516065817,
  3600352804, 4094571909, 275423344, 430227734, 506948616,
  659060556, 883997877, 958139571, 1322822218, 1537002063,
  1747873779, 1955562222, 2024104815, 2227730452, 2361852424,
  2428436474, 2756734187, 3204031479, 3329325298]

/-- SHA-256 initial hash value. -/
def sha256H0 : List Nat :=
  [1779033703, 3144134277, 1013904242, 2773480762,
   1359893119, 2600822924, 528734635, 1541459225]

/-- Message-schedule extension: the 16 block words extended to 64. -/
def sha256Schedule (ws : List Nat) : Array Nat :=
  (List.range 48).foldl
    (fun arr t =>
      let i := t + 16
      let w15 := arr[i - 15]!
      let w2 := arr[i - 2]!
      let s0 := rotr32 7 w15 ^^^ rotr32 18 w15 ^^^ (w15 >>> 3)
      let s1 := rotr32 17 w2 ^^^ rotr32 19 w2 ^^^ (w2 >>> 10)
      arr.push ((arr[i - 16]! + s0 + arr[i - 7]! + s1) % M32))
    ws.toArray

/-- One SHA-256 compression round on the working state `(a,…,h)`. -/
def sha256Round (w : Array Nat) (st : Nat × Nat × Nat × Nat × Nat × Nat × Nat × Nat)
    (t : Nat) : Nat × Nat × Nat × Nat × Nat × Nat × Nat × Nat :=
  let (a, b, c, d, e, f, g, h) := st
  let s1 := rotr32 6 e ^^^ rotr32 11 e ^^^ rotr32 25 e
  let ch := (e &&& f) ^^^ (not32 e &&& g)
  let temp1 := (h + s1 + ch + sha256K[t]! + w[t]!) % M32
  let s0 := rotr32 2 a ^^^ rotr32 13 a ^^^ rotr32 22 a
  let maj := (a &&& b) ^^^ (a &&& c) ^^^ (b &&& c)
  let temp2 := (s0 + maj) % M32
  ((temp1 + temp2) % M32, a, b, c, (d + temp1) % M32, e, f, g)

/-- Compress one 64-byte block into the running hash (8 words). -/
def sha256Block (hs : List Nat) (block : List Nat) : List Nat :=
  let w := sha256Schedule ((chunks 4 block).map word32)
  match hs with
  | [h0, h1, h2, h3, h4, h5, h6, h7] =>
    let (a, b, c, d, e, f, g, h) :=
      (List.range 64).foldl (sha256Round w) (h0, h1, h2, h3, h4, h5, h6, h7)
    [(h0 + a) % M32, (h1 + b) % M32, (h2 + c) % M32, (h3 + d) % M32,
     (h4 + e) % M32, (h5 + f) % M32, (h6 + g) % M32, (h7 + h) % M32]
  | _ => hs

/-- SHA-256 padding: append `0x80`, zeros to 56 mod 64, then the 8-byte
big-endian bit length. -/
def sha256Pad (msg : List Nat) : List Nat :=
  let len := msg.length
  let zeros := (64 - ((len + 9) % 64)) % 64
  msg ++ [0x80] ++ List.replicate zeros 0 ++ toBytesBE 8 (len * 8)

/-- SHA-256 digest (32 bytes) of a byte string. -/
def sha256 (msg : List Nat) : List Nat :=
  let hs := (chunks 64 (sha256Pad msg)).foldl sha256Block sha256H0
  hs.flatMap (toBytesBE 4)

/-- UTF-8 encoding of one unicode scalar value (python `str.encode("utf-8")`
per character). -/
def utf8Char (c : Nat) : List Nat :=
  if c < 0x80 then [c]
  else if c < 0x800 then
    [0xC0 ||| (c >>> 6), 0x80 ||| (c &&& 0x3F)]
  else if c < 0x10000 then
    [0xE0 ||| (c >>> 12), 0x80 ||| ((c >>> 6) &&& 0x3F), 0x80 ||| (c &&& 0x3F)]
  else
    [0xF0 ||| (c >>> 18), 0x80 ||| ((c >>> 12) &&& 0x3F),
     0x80 ||| ((c >>> 6) &&& 0x3F), 0x80 ||| (c &&& 0x3F)]

/-- `s.encode("utf-8")` as a byte list. -/
def strBytes (s : String) : List Nat := s.data.flatMap fun ch => utf8Char ch.toNat

/-- Lower-case hex digit. -/
def hexChar (n : Nat) : Char :=
  if n < 10 then Char.ofNat (48 + n) else Char.ofNat (87 + n)

/-- `.hexdigest()`: lower-case hex string of a byte list. -/
def hexdigest (bytes : List Nat) : String :=
  String.mk (bytes.flatMap fun b => [hexChar (b / 16), hexChar (b % 16)])

/-- `hmac.new(key, msg, hashlib.sha256).digest()` (RFC 2104, block 64). -/
def hmacSha256 (key msg : List Nat) : List Nat :=
  let k0 := if 64 < key.length then sha256 key else key
  let kpad := k0 ++ List.replicate (64 - k0.length) 0
  let ipad := kpad.map fun b => b ^^^ 0x36
  let opad := kpad.map fun b => b ^^^ 0x5c
  sha256 (opad ++ sha256 (ipad ++ msg))

/-- Hex HMAC-SHA256 over strings, as computed in `verify_razorpay_signature`. -/
def hmacSha256Hex (key msg : String) : String :=
  hexdigest (hmacSha256 (strBytes key) (strBytes msg))

/-! ## Payments / subscription service (`main.py`) -/

/-- Server environment (`os.getenv` results): `none` models an unset
variable. -/
structure Env where
  beehiiv_api_key : Option String
  beehiiv_publication_id : Option String
  razorpay_key_id : Option String
  razorpay_key_secret : Option String

/-- Python truthiness of an `os.getenv` result (`if not api_key`): an unset
variable and the empty string are both falsy. -/
def truthy : Option String → Bool
  | none => false
  | some s => !(s == "")

/-- Outcome of `requests.post(...)` as observed by the handler: a timeout
(`requests.Timeout`), another transport failure (`requests.RequestException`
with its message), or an HTTP response with status code, JSON body when the
body parses (`r.json()`), and raw text. -/
inductive ProviderCall where
  | timeout
  | reqError (msg : String)
  | response (status : Nat) (jsonBody : Option (List (String × JVal))) (text : String)

/-- An HTTP endpoint outcome: a 200 JSON body, or an `HTTPException` with
status code and detail. -/
inductive ApiResp where
  | ok (body : List (String × JVal))
  | err (status : Nat) (detail : JVal)

/-- Fallback of the error-forwarding blocks: `r.json()` if it parses, else
`{"message": r.text}`. -/
def errBody (jsonBody : Option (List (String × JVal))) (text : String) : JVal :=
  match jsonBody with
  | some b => .obj b
  | none => .obj [("message", .str text)]

structure SubscribeRequest where
  email : String
  source : Option String

/-- The JSON body sent to Beehiiv: email, `utm_source` defaulted over python
`or` (falsy `source` becomes "website"), and the welcome flag. -/
def subscribeData (p : SubscribeRequest) : List (String × JVal) :=
  [("email", .str p.email),
   ("utm_source", .str (match p.source with
     | some s => if s == "" then "website" else s
     | none => "website")),
   ("send_welcome_email", .bool true)]

/-- `POST /subscribe` handler body (after pydantic validation): configuration
check, then the outbound call — modelled by `provider` applied to the data
actually sent — mapped to the response.  An `HTTPException` raised inside the
`try` block is not a `requests.RequestException`, so it propagates. -/
def subscribe (env : Env) (provider : List (String × JVal) → ProviderCall)
    (payload : SubscribeRequest) : ApiResp :=
  if !truthy env.beehiiv_api_key || !truthy env.beehiiv_publication_id then
    .err 500 (.str "Beehiiv not configured on server")
  else
    match provider (subscribeData payload) with
    | .timeout => .err 504 (.str "Beehiiv timeout")
    | .reqError m => .err 502 (.str ("Beehiiv error: " ++ m))
    | .response status jsonBody text =>
        if status == 200 || status == 201 then .ok [("success", .bool true)]
        else .err status (errBody jsonBody text)

structure CreateUPIOrderRequest where
  amount_inr : Int
  receipt : Option String
  notes : Option (List (String × JVal))

/-- The receipt actually sent: `payload.receipt or "rcpt_" + str(amount_inr)`
(python `or`: `None` and the empty string both fall back to the derived
value). -/
def upiReceipt (p : CreateUPIOrderRequest) : String :=
  match p.receipt with
  | some r => if r == "" then "rcpt_" ++ toString p.amount_inr else r
  | none => "rcpt_" ++ toString p.amount_inr

/-- The JSON order request sent to Razorpay. -/
def upiOrderData (p : CreateUPIOrderRequest) : List (String × JVal) :=
  [("amount", .num (p.amount_inr : Rat)),
   ("currency", .str "INR"),
   ("receipt", .str (upiReceipt p)),
   ("payment_capture", .num 1),
   ("notes", .obj (p.notes.getD []))]

/-- `POST /payments/upi/create-order` handler body: configuration check, the
outbound call on `upiOrderData`, `raise_for_status()` (an `HTTPError` for any
status ≥ 400 forwards the provider error with its status), then the success
shaping from `r.json()`.  When the success body is not JSON, `r.json()`
raises a `requests.JSONDecodeError`, a `RequestException`, hence the 502
branch (its message is approximated by the body text). -/
def create_upi_order (env : Env)
    (gateway : List (String × JVal) → ProviderCall)
    (p : CreateUPIOrderRequest) : ApiResp :=
  if !truthy env.razorpay_key_id || !truthy env.razorpay_key_secret then
    .err 500 (.str "Razorpay not configured on server")
  else
    match gateway (upiOrderData p) with
    | .timeout => .err 504 (.str "Razorpay timeout")
    | .reqError m => .err 502 (.str ("Razorpay error: " ++ m))
    | .response status jsonBody text =>
        if 400 ≤ status then .err status (errBody jsonBody text)
        else
          match jsonBody with
          | none => .err 502 (.str ("Razorpay error: " ++ text))
          | some order =>
              .ok [("order_id", (lookupField order "id").getD .null),
                   ("amount", (lookupField order "amount").getD .null),
                   ("currency", (lookupField order "currency").getD .null),
                   ("key_id", .str (env.razorpay_key_id.getD ""))]

/-- The raw `POST /payments/upi/create-order` body before FastAPI/pydantic
validation: the fields with their JSON types, constraints not yet enforced. -/
structure UPIRawBody where
  amount_inr : Int
  receipt : Option String
  notes : Option (List (String × JVal))

/-- Pydantic parsing of `CreateUPIOrderRequest`: `amount_inr` carries
`Field(..., ge=1)`; failure means FastAPI answers 422 before the handler
runs. -/
def parseUPIBody (b : UPIRawBody) : Option CreateUPIOrderRequest :=
  if 1 ≤ b.amount_inr then some ⟨b.amount_inr, b.receipt, b.notes⟩ else none

/-- The full route: FastAPI request validation (422 on constraint violation,
the handler never runs) then the handler. -/
def create_upi_order_route (env : Env)
    (gateway : List (String × JVal) → ProviderCall) (b : UPIRawBody) : ApiResp :=
  match parseUPIBody b with
  | none => .err 422 (.str "request validation error")
  | some p => create_upi_order env gateway p

structure VerifyRazorpaySignatureRequest where
  order_id : String
  payment_id : String
  signature : String

/-- A python string is ASCII-only (`str.isascii()`). -/
def isAsciiStr (s : String) : Bool := s.data.all fun c => decide (c.toNat < 128)

/-- Outcome of `hmac.compare_digest` on two `str` operands. -/
inductive CompareDigestResult where
  | ok (b : Bool)
  | typeError

/-- CPython `hmac.compare_digest(a, b)` on `str` operands: it raises
`TypeError` ("comparing strings with non-ASCII characters is not
supported") when either operand contains a non-ASCII character; on
ASCII-only operands it decides string equality, in constant time. -/
def compare_digest (a b : String) : CompareDigestResult :=
  if isAsciiStr a && isAsciiStr b then .ok (a == b) else .typeError

/-- `POST /payments/razorpay/verify-signature`: configuration check on the
key secret, then `hmac.compare_digest(generated, payload.signature)` where
`generated` is the hex HMAC-SHA256 of `"{order_id}|{payment_id}"` keyed by
the secret.  A `TypeError` out of `compare_digest` (non-ASCII caller
signature; `generated` itself is always ASCII hex) is uncaught in the
handler, so FastAPI answers it as a plain 500 Internal Server Error. -/
def verify_razorpay_signature (env : Env)
    (r : VerifyRazorpaySignatureRequest) : ApiResp :=
  if !truthy env.razorpay_key_secret then
    .err 500 (.str "Razorpay not configured on server")
  else
    let secret := env.razorpay_key_secret.getD ""
    let generated := hmacSha256Hex secret (r.order_id ++ "|" ++ r.payment_id)
    match compare_digest generated r.signature with
    | .ok true => .ok [("valid", .bool true)]
    | .ok false => .err 400 (.obj [("valid", .bool false)])
    | .typeError => .err 500 (.str "Internal Server Error")

/-! ## Dict lemmas -/

theorem lookupField_setField_self (d : Doc) (k : String) (v : JVal) :
    lookupField (setField d k v) k = some v := by
  induction d with
  | nil => simp [setField, lookupField]
  | cons hd t ih =>
    obtain ⟨c, w⟩ := hd
    cases h : (c == k) with
    | true => simp [setField, h, lookupField]
    | false => simp [setField, h, lookupField, ih]

theorem lookupField_setField_ne {d : Doc} {a b : String} (v : JVal)
    (hne : (a == b) = false) :
    lookupField (setField d a v) b = lookupField d b := by
  induction d with
  | nil => simp [setField, lookupField, hne]
  | cons hd t ih =>
    obtain ⟨c, w⟩ := hd
    cases h : (c == a) with
    | true =>
      have hc : c = a := eq_of_beq h
      subst hc
      simp [setField, lookupField, hne]
    | false => simp [setField, h, lookupField, ih]

/-- The new collection contents after `create_document`: the old documents
with the augmented payload appended. -/
theorem create_document_snd (st : Store) (coll : String) (data : Doc)
    (now newId : String) :
    (create_document st coll data now newId).2 coll =
      st coll ++ [(create_document st coll data now newId).1] := by
  simp [create_document]

/-! ## Claim theorems -/

/-- C8: every document persisted through `create_document` (products via
`POST /products`, orders via `POST /checkout`) carries both a `created_at`
and an `updated_at` field, the two values equal at creation; the persisted
document is the returned one. -/
theorem C8_insert_stamps_equal_timestamps (st : Store) (coll : String)
    (data : Doc) (now newId : String) :
    (create_document st coll data now newId).2 coll =
      st coll ++ [(create_document st coll data now newId).1] ∧
    lookupField (create_document st coll data now newId).1 "created_at" =
      some (.str now) ∧
    lookupField (create_document st coll data now newId).1 "updated_at" =
      some (.str now) := by
  refine ⟨create_document_snd st coll data now newId, ?_, ?_⟩
  · show lookupField
      (setField (setField (setField data "created_at" (.str now))
        "updated_at" (.str now)) "_id" (.str newId)) "created_at" = some (.str now)
    rw [lookupField_setField_ne _ (by decide), lookupField_setField_ne _ (by decide),
      lookupField_setField_self]
  · show lookupField
      (setField (setField (setField data "created_at" (.str now))
        "updated_at" (.str now)) "_id" (.str newId)) "updated_at" = some (.str now)
    rw [lookupField_setField_ne _ (by decide), lookupField_setField_self]

/-- C2: whatever status the caller submits (pending, paid, failed, or the
default when absent), the order returned by `POST /checkout` has status
"paid", and that same record is what is appended to the "order" collection. -/
theorem C2_checkout_forces_paid (st : Store) (o : Order) (now newId : String) :
    lookupField (checkout st o now newId).1 "status" = some (.str "paid") ∧
    (checkout st o now newId).2 "order" =
      st "order" ++ [(checkout st o now newId).1] := by
  constructor
  · show lookupField
      (setField (setField (setField
        (setField (setField (orderToDoc o) "status" (.str "paid"))
          "download_url" _)
        "created_at" (.str now)) "updated_at" (.str now)) "_id" (.str newId))
      "status" = some (.str "paid")
    rw [lookupField_setField_ne _ (by decide), lookupField_setField_ne _ (by decide),
      lookupField_setField_ne _ (by decide), lookupField_setField_ne _ (by decide),
      lookupField_setField_self]
  · exact create_document_snd st "order" _ now newId

/-- C5: a product-creation request whose price is negative, or whose
description is shorter than 20 or longer than 5000 characters, fails with a
422 validation error and leaves the store unchanged (nothing inserted). -/
theorem C5_invalid_product_rejected (st : Store) (p : Product)
    (now newId : String)
    (h : p.price < 0 ∨ p.description.length < 20 ∨ 5000 < p.description.length) :
    create_product st p now newId = (.httpError 422 "validation error", st) := by
  have hv : validProduct p = false := by
    unfold validProduct
    rcases h with h | h | h
    · have hd : decide (0 ≤ p.price) = false := decide_eq_false (not_le.mpr h)
      simp [hd]
    · have hd : decide (20 ≤ p.description.length) = false :=
        decide_eq_false (by omega)
      simp [hd]
    · have hd : decide (p.description.length ≤ 5000) = false :=
        decide_eq_false (by omega)
      simp [hd]
  simp [create_product, hv]

/-- Witness for C5 at a concrete negative-price product. -/
theorem C5_invalid_product_rejected_witness :
    create_product Store.empty
      ⟨"Great Course", "great-course", "A long enough description of this.",
        -1, .other, none, 4.8, 0, none, none, none, none⟩ "t0" "id0" =
      (.httpError 422 "validation error", Store.empty) :=
  C5_invalid_product_rejected Store.empty _ "t0" "id0" (Or.inl (by decide))

/-- C9 counterexample: with caller-supplied receipt `""` and amount 5, the
receipt sent to the gateway is the derived `"rcpt_5"`, not the supplied
string — so the receipt does not always equal the caller-supplied one. -/
theorem C9_counterexample_empty_receipt :
    lookupField (upiOrderData ⟨5, some "", none⟩) "receipt" =
      some (.str "rcpt_5") ∧ "rcpt_5" ≠ "" := by
  constructor
  · rfl
  · decide

/-- C9 (amended): the receipt sent to the gateway equals the caller-supplied
receipt when one is provided and non-empty, and is the derived
`"rcpt_" + amount_inr` when the receipt is absent or empty. -/
theorem C9_receipt_sent (p : CreateUPIOrderRequest) (r : String) :
    (p.receipt = some r → r ≠ "" →
      lookupField (upiOrderData p) "receipt" = some (.str r)) ∧
    (p.receipt = none ∨ p.receipt = some "" →
      lookupField (upiOrderData p) "receipt" =
        some (.str ("rcpt_" ++ toString p.amount_inr))) := by
  constructor
  · intro hr hne
    have hb : (r == "") = false := beq_eq_false_iff_ne.mpr hne
    simp [upiOrderData, upiReceipt, hr, hb, lookupField]
  · rintro (hr | hr) <;> simp [upiOrderData, upiReceipt, hr, lookupField]

/-- Witness for C9 at a concrete non-empty receipt and a concrete absent
receipt. -/
theorem C9_receipt_sent_witness :
    lookupField (upiOrderData ⟨7, some "my-receipt", none⟩) "receipt" =
      some (.str "my-receipt") ∧
    lookupField (upiOrderData ⟨7, none, none⟩) "receipt" =
      some (.str ("rcpt_" ++ toString (7 : Int))) :=
  ⟨(C9_receipt_sent ⟨7, some "my-receipt", none⟩ "my-receipt").1 rfl (by decide),
   (C9_receipt_sent ⟨7, none, none⟩ "").2 (Or.inl rfl)⟩

/-- C10: a caller-supplied empty-string receipt is treated exactly like an
absent receipt — the whole gateway payload coincides with the
absent-receipt one, and the receipt sent is the derived
`"rcpt_" + amount_inr`, never the empty string. -/
theorem C10_empty_receipt_like_absent (a : Int)
    (notes : Option (List (String × JVal))) :
    upiOrderData ⟨a, some "", notes⟩ = upiOrderData ⟨a, none, notes⟩ ∧
    lookupField (upiOrderData ⟨a, some "", notes⟩) "receipt" =
      some (.str ("rcpt_" ++ toString a)) := by
  constructor
  · simp [upiOrderData, upiReceipt]
  · simp [upiOrderData, upiReceipt, lookupField]

/-- C3 counterexample: with every secret missing, a request body that fails
schema validation (`amount_inr = 0` violates `ge=1`) is answered by FastAPI
with 422 before the configuration check in the handler can run — not with the
configuration error 500 the claim requires for every body. -/
theorem C3_counterexample_invalid_body :
    create_upi_order_route ⟨none, none, none, none⟩ (fun _ => .timeout)
        ⟨0, none, none⟩ ≠
      ApiResp.err 500 (.str "Razorpay not configured on server") := by
  simp [create_upi_order_route, parseUPIBody]

/-- C3 (amended): whenever the required server secrets are missing (python
falsy: unset or empty), `POST /subscribe` and
`POST /payments/upi/create-order` fail with the configuration error 500 —
for every request body that passes schema validation. -/
theorem C3_missing_secrets_config_error (env : Env) :
    ((truthy env.beehiiv_api_key = false ∨
        truthy env.beehiiv_publication_id = false) →
      ∀ provider payload, subscribe env provider payload =
        .err 500 (.str "Beehiiv not configured on server")) ∧
    ((truthy env.razorpay_key_id = false ∨
        truthy env.razorpay_key_secret = false) →
      ∀ gateway (b : UPIRawBody) p, parseUPIBody b = some p →
        create_upi_order_route env gateway b =
          .err 500 (.str "Razorpay not configured on server")) := by
  constructor
  · rintro (h | h) provider payload <;> simp [subscribe, h]
  · rintro (h | h) gateway b p hp <;>
      simp [create_upi_order_route, hp, create_upi_order, h]

/-- Witness for C3: all secrets unset, concrete valid bodies. -/
theorem C3_missing_secrets_config_error_witness :
    subscribe ⟨none, none, none, none⟩ (fun _ => .timeout) ⟨"a@b.co", none⟩ =
      .err 500 (.str "Beehiiv not configured on server") ∧
    create_upi_order_route ⟨none, none, none, none⟩ (fun _ => .timeout)
        ⟨49900, none, none⟩ =
      .err 500 (.str "Razorpay not configured on server") :=
  ⟨(C3_missing_secrets_config_error ⟨none, none, none, none⟩).1
      (Or.inl rfl) _ _,
   (C3_missing_secrets_config_error ⟨none, none, none, none⟩).2
      (Or.inl rfl) _ ⟨49900, none, none⟩ ⟨49900, none, none⟩ rfl⟩

/-- The HTTP status of a response. -/
def statusOf : ApiResp → Nat
  | .ok _ => 200
  | .err s _ => s

/-- C4: when the outbound provider call times out (and the endpoint is
configured, so the call is actually made), both `POST /subscribe` and
`POST /payments/upi/create-order` answer 504 Gateway-Timeout with the
provider-specific message, and in particular never the 502 Bad-Gateway
classification. -/
theorem C4_timeout_is_504 (env : Env)
    (provider gateway : List (String × JVal) → ProviderCall)
    (p : SubscribeRequest) (q : CreateUPIOrderRequest)
    (h1 : truthy env.beehiiv_api_key = true)
    (h2 : truthy env.beehiiv_publication_id = true)
    (h3 : truthy env.razorpay_key_id = true)
    (h4 : truthy env.razorpay_key_secret = true)
    (hp : provider (subscribeData p) = .timeout)
    (hg : gateway (upiOrderData q) = .timeout) :
    subscribe env provider p = .err 504 (.str "Beehiiv timeout") ∧
    create_upi_order env gateway q = .err 504 (.str "Razorpay timeout") ∧
    statusOf (subscribe env provider p) ≠ 502 ∧
    statusOf (create_upi_order env gateway q) ≠ 502 := by
  have hs : subscribe env provider p = .err 504 (.str "Beehiiv timeout") := by
    simp [subscribe, h1, h2, hp]
  have hc : create_upi_order env gateway q =
      .err 504 (.str "Razorpay timeout") := by
    simp [create_upi_order, h3, h4, hg]
  refine ⟨hs, hc, ?_, ?_⟩ <;> simp [hs, hc, statusOf]

/-- Witness for C4: fully configured environment, providers that time out,
concrete bodies. -/
theorem C4_timeout_is_504_witness :
    subscribe ⟨some "k", some "pub", some "rid", some "rsec"⟩
        (fun _ => .timeout) ⟨"a@b.co", some "landing"⟩ =
      .err 504 (.str "Beehiiv timeout") ∧
    create_upi_order ⟨some "k", some "pub", some "rid", some "rsec"⟩
        (fun _ => .timeout) ⟨49900, none, none⟩ =
      .err 504 (.str "Razorpay timeout") ∧
    statusOf (subscribe ⟨some "k", some "pub", some "rid", some "rsec"⟩
        (fun _ => .timeout) ⟨"a@b.co", some "landing"⟩) ≠ 502 ∧
    statusOf (create_upi_order ⟨some "k", some "pub", some "rid", some "rsec"⟩
        (fun _ => .timeout) ⟨49900, none, none⟩) ≠ 502 :=
  C4_timeout_is_504 ⟨some "k", some "pub", some "rid", some "rsec"⟩
    (fun _ => .timeout) (fun _ => .timeout) ⟨"a@b.co", some "landing"⟩
    ⟨49900, none, none⟩ rfl rfl rfl rfl rfl rfl

/-- C7: when both `min_price` and `max_price` are supplied to
`GET /products`, every returned product has a numeric price within
`[min_price, max_price]`. -/
theorem C7_price_range_respected (st : Store) (category level : Option String)
    (mn mx : Rat) (limit : Nat) (d : Doc)
    (hd : d ∈ list_products st category (some mn) (some mx) level limit) :
    ∃ q : Rat, lookupField d "price" = some (.num q) ∧ mn ≤ q ∧ q ≤ mx := by
  simp only [list_products, get_documents] at hd
  have hmem := List.take_subset _ _ hd
  have hm := (List.mem_filter.1 hmem).2
  have hc := List.all_eq_true.1 hm
    ("price", QCond.range (some mn) (some mx)) (by simp)
  simp only [matchCond] at hc
  cases h : lookupField d "price" with
  | none => rw [h] at hc; simp at hc
  | some v =>
    rw [h] at hc
    cases v with
    | num q =>
      simp [Option.all] at hc
      exact ⟨q, rfl, hc.1, hc.2⟩
    | str s => simp at hc
    | bool b => simp at hc
    | null => simp at hc
    | arr l => simp at hc
    | obj l => simp at hc

/-- Witness for C7: a one-product store, price 15, range [10, 20]. -/
theorem C7_price_range_respected_witness :
    ∃ q : Rat,
      lookupField [("slug", JVal.str "p1"), ("price", JVal.num 15)] "price" =
        some (.num q) ∧ (10 : Rat) ≤ q ∧ q ≤ 20 :=
  C7_price_range_respected
    (fun c => if c == "product" then
      [[("slug", JVal.str "p1"), ("price", JVal.num 15)]] else [])
    none none 10 20 50 [("slug", JVal.str "p1"), ("price", JVal.num 15)]
    (by
      simp only [list_products, get_documents]
      exact List.mem_singleton.2 rfl)

/-- C6: a valid product stored via `POST /products` into a store holding no
other product with its slug is returned by `GET /products/{slug}`
field-for-field identical, augmented only with the two timestamps and the
store-assigned identifier. -/
theorem C6_create_get_roundtrip (st : Store) (p : Product) (now newId : String)
    (hv : validProduct p = true)
    (hs : ∀ d ∈ st "product", matchCond d "slug" (.eqs p.slug) = false) :
    (create_product st p now newId).1 =
      .ok (productToDoc p ++ [("created_at", .str now),
        ("updated_at", .str now), ("_id", .str newId)]) ∧
    get_product (create_product st p now newId).2 p.slug =
      .ok (productToDoc p ++ [("created_at", .str now),
        ("updated_at", .str now), ("_id", .str newId)]) := by
  have hdoc : (create_document st "product" (productToDoc p) now newId).1 =
      productToDoc p ++ [("created_at", .str now), ("updated_at", .str now),
        ("_id", .str newId)] := by
    simp [create_document, productToDoc, setField]
  have hstate : (create_product st p now newId).2 "product" =
      st "product" ++ [productToDoc p ++ [("created_at", .str now),
        ("updated_at", .str now), ("_id", .str newId)]] := by
    simp only [create_product, hv, if_true]
    rw [create_document_snd, hdoc]
  have h1 : (st "product").filter (matchFilter [("slug", QCond.eqs p.slug)]) =
      [] :=
    List.filter_eq_nil_iff.2 fun d hdm => by
      simp [matchFilter, hs d hdm]
  have h2 : matchFilter [("slug", QCond.eqs p.slug)]
      (productToDoc p ++ [("created_at", .str now), ("updated_at", .str now),
        ("_id", .str newId)]) = true := by
    simp [matchFilter, matchCond, productToDoc, lookupField]
  constructor
  · simp only [create_product, hv, if_true]
    rw [hdoc]
  · rw [get_product, get_documents, hstate, List.filter_append, h1]
    simp [List.filter_cons, h2]

/-- Witness for C6: a concrete valid product stored into an empty store and
fetched back by its slug. -/
theorem C6_create_get_roundtrip_witness :
    (create_product Store.empty
      ⟨"My Course", "my-course", "This is a sufficiently long description.",
        10, .course, none, 4, 0, none, none, none, none⟩ "t0" "id0").1 =
      .ok (productToDoc
        ⟨"My Course", "my-course", "This is a sufficiently long description.",
          10, .course, none, 4, 0, none, none, none, none⟩ ++
        [("created_at", .str "t0"), ("updated_at", .str "t0"),
         ("_id", .str "id0")]) ∧
    get_product (create_product Store.empty
      ⟨"My Course", "my-course", "This is a sufficiently long description.",
        10, .course, none, 4, 0, none, none, none, none⟩ "t0" "id0").2
      "my-course" =
      .ok (productToDoc
        ⟨"My Course", "my-course", "This is a sufficiently long description.",
          10, .course, none, 4, 0, none, none, none, none⟩ ++
        [("created_at", .str "t0"), ("updated_at", .str "t0"),
         ("_id", .str "id0")]) :=
  C6_create_get_roundtrip Store.empty
    ⟨"My Course", "my-course", "This is a sufficiently long description.",
      10, .course, none, 4, 0, none, none, none, none⟩ "t0" "id0"
    (by decide) (by simp [Store.empty])

/-! ## ASCII facts about hex digests -/

theorem hexChar_ascii (m : Nat) (hm : m ≤ 15) : (hexChar m).toNat < 128 := by
  interval_cases m <;> decide

theorem toBytesBE_le (k n : Nat) : ∀ b ∈ toBytesBE k n, b ≤ 255 := by
  intro b hb
  unfold toBytesBE at hb
  rw [List.mem_map] at hb
  obtain ⟨i, hi, hbe⟩ := hb
  subst hbe
  exact Nat.and_le_right

theorem sha256_le (msg : List Nat) : ∀ b ∈ sha256 msg, b ≤ 255 := by
  intro b hb
  have he : sha256 msg =
      ((chunks 64 (sha256Pad msg)).foldl sha256Block sha256H0).flatMap
        (toBytesBE 4) := rfl
  rw [he] at hb
  rw [List.mem_flatMap] at hb
  obtain ⟨w, hw, hbw⟩ := hb
  exact toBytesBE_le 4 w b hbw

theorem hexdigest_ascii (bytes : List Nat) (hb : ∀ b ∈ bytes, b ≤ 255) :
    isAsciiStr (hexdigest bytes) = true := by
  show (bytes.flatMap fun b => [hexChar (b / 16), hexChar (b % 16)]).all
      (fun c => decide (c.toNat < 128)) = true
  rw [List.all_eq_true]
  intro c hc
  rw [List.mem_flatMap] at hc
  obtain ⟨b, hbm, hcb⟩ := hc
  have hb2 := hb b hbm
  have hd : b / 16 ≤ 15 := by omega
  have hm : b % 16 ≤ 15 := by omega
  simp only [List.mem_cons, List.mem_singleton, List.not_mem_nil, or_false]
    at hcb
  rcases hcb with h | h
  · subst h; exact decide_eq_true (hexChar_ascii _ hd)
  · subst h; exact decide_eq_true (hexChar_ascii _ hm)

/-- The hex HMAC-SHA256 digest computed by the handler is always ASCII. -/
theorem hmacSha256Hex_ascii (key msg : String) :
    isAsciiStr (hmacSha256Hex key msg) = true :=
  hexdigest_ascii _ (fun b hb => sha256_le _ b hb)

theorem isAsciiStr_append (a b : String) :
    isAsciiStr (a ++ b) = (isAsciiStr a && isAsciiStr b) := by
  simp [isAsciiStr, String.data_append a b]

/-- C1 counterexample: with secret "S", the non-ASCII signature "ä" makes
`hmac.compare_digest` raise `TypeError`, so the endpoint answers a plain
500 Internal Server Error — not the 400 `{valid: false}` the claim asserts
for every non-matching signature string. -/
theorem C1_counterexample_nonascii_signature :
    verify_razorpay_signature ⟨none, none, none, some "S"⟩ ⟨"o1", "p1", "ä"⟩ =
      .err 500 (.str "Internal Server Error") ∧
    verify_razorpay_signature ⟨none, none, none, some "S"⟩ ⟨"o1", "p1", "ä"⟩ ≠
      .err 400 (.obj [("valid", .bool false)]) := by
  have ha : isAsciiStr "ä" = false := by decide
  have hres : verify_razorpay_signature ⟨none, none, none, some "S"⟩
      ⟨"o1", "p1", "ä"⟩ = .err 500 (.str "Internal Server Error") := by
    simp [verify_razorpay_signature, truthy, compare_digest, ha]
  exact ⟨hres, by rw [hres]; simp⟩

/-- C1 (amended): with a configured (non-empty) shared secret, verification
answers `{valid: true}` exactly when the supplied signature equals the hex
HMAC-SHA256 of `order_id + "|" + payment_id` keyed by the secret; every
other ASCII signature string fails with status 400 and detail
`{valid: false}`; a non-ASCII signature makes `hmac.compare_digest` raise
an uncaught `TypeError`, surfacing as a 500 Internal Server Error instead. -/
theorem C1_verify_signature (env : Env) (s : String)
    (hsec : env.razorpay_key_secret = some s) (hne : s ≠ "")
    (r : VerifyRazorpaySignatureRequest) :
    (verify_razorpay_signature env r = .ok [("valid", .bool true)] ↔
      r.signature = hmacSha256Hex s (r.order_id ++ "|" ++ r.payment_id)) ∧
    (isAsciiStr r.signature = true →
      r.signature ≠ hmacSha256Hex s (r.order_id ++ "|" ++ r.payment_id) →
      verify_razorpay_signature env r = .err 400 (.obj [("valid", .bool false)])) ∧
    (isAsciiStr r.signature = false →
      verify_razorpay_signature env r = .err 500 (.str "Internal Server Error")) := by
  have hb : (s == "") = false := beq_eq_false_iff_ne.mpr hne
  have ht2 : truthy (some s) = true := by simp [truthy, hb]
  have hgen : isAsciiStr (hmacSha256Hex s (r.order_id ++ "|" ++ r.payment_id)) =
      true := hmacSha256Hex_ascii _ _
  cases ha : isAsciiStr r.signature with
  | false =>
    have hres : verify_razorpay_signature env r =
        .err 500 (.str "Internal Server Error") := by
      simp [verify_razorpay_signature, ht2, hsec, compare_digest, ha]
    refine ⟨⟨fun hok => ?_, fun hsig => ?_⟩, fun hc _ => absurd hc (by decide),
      fun _ => hres⟩
    · rw [hres] at hok
      exact absurd hok (by simp)
    · exfalso
      rw [hsig] at ha
      simp [hgen] at ha
  | true =>
    cases hcmp : (hmacSha256Hex s (r.order_id ++ "|" ++ r.payment_id) ==
        r.signature) with
    | true =>
      have heq : r.signature =
          hmacSha256Hex s (r.order_id ++ "|" ++ r.payment_id) :=
        (eq_of_beq hcmp).symm
      have hres : verify_razorpay_signature env r = .ok [("valid", .bool true)] := by
        simp [verify_razorpay_signature, ht2, hsec, compare_digest, hgen, ha, hcmp]
      exact ⟨⟨fun _ => heq, fun _ => hres⟩, fun _ hn => absurd heq hn,
        fun hf => absurd hf (by decide)⟩
    | false =>
      have hne2 : r.signature ≠
          hmacSha256Hex s (r.order_id ++ "|" ++ r.payment_id) := by
        intro h
        simp [h] at hcmp
      have hres : verify_razorpay_signature env r =
          .err 400 (.obj [("valid", .bool false)]) := by
        simp [verify_razorpay_signature, ht2, hsec, compare_digest, hgen, ha, hcmp]
      refine ⟨⟨fun hok => ?_, fun h => absurd h hne2⟩, fun _ _ => hres,
        fun hf => absurd hf (by decide)⟩
      rw [hres] at hok
      exact absurd hok (by simp)

/-- Witness for C1: secret "S", order "o1", payment "p1"; the computed HMAC
is accepted, an ASCII signature of different length is rejected with 400,
and the non-ASCII signature "ä" is answered 500. -/
theorem C1_verify_signature_witness :
    verify_razorpay_signature ⟨none, none, none, some "S"⟩
        ⟨"o1", "p1", hmacSha256Hex "S" "o1|p1"⟩ = .ok [("valid", .bool true)] ∧
    verify_razorpay_signature ⟨none, none, none, some "S"⟩
        ⟨"o1", "p1", "x" ++ hmacSha256Hex "S" "o1|p1"⟩ =
      .err 400 (.obj [("valid", .bool false)]) ∧
    verify_razorpay_signature ⟨none, none, none, some "S"⟩
        ⟨"o1", "p1", "ä"⟩ = .err 500 (.str "Internal Server Error") :=
  ⟨(C1_verify_signature ⟨none, none, none, some "S"⟩ "S" rfl (by decide)
      ⟨"o1", "p1", hmacSha256Hex "S" "o1|p1"⟩).1.mpr rfl,
   (C1_verify_signature ⟨none, none, none, some "S"⟩ "S" rfl (by decide)
      ⟨"o1", "p1", "x" ++ hmacSha256Hex "S" "o1|p1"⟩).2.1
      (by rw [isAsciiStr_append, hmacSha256Hex_ascii]; decide)
      (by
        intro heq
        have hstr : ("o1" : String) ++ "|" ++ "p1" = "o1|p1" := rfl
        rw [hstr] at heq
        have h2 := congrArg String.length heq
        rw [String.length_append] at h2
        have h3 : ("x" : String).length = 1 := rfl
        rw [h3] at h2
        omega),
   (C1_verify_signature ⟨none, none, none, some "S"⟩ "S" rfl (by decide)
      ⟨"o1", "p1", "ä"⟩).2.2 (by decide)⟩
